import Mathlib

/-!
# EgyTalk authentication backend

A shallow embedding of `www/server/router.mjs` and `www/server/mariadb/connect.mjs`.

* JavaScript objects are association lists from property names to values.
* The relational store is a list of rows of table `user` together with a script of
  faults: every `connectToDB()` and every `connection.execute(...)` consumes one entry
  of the script and throws when that entry is `true`.
* A column holds a store value, which is never `undefined`; `connection.execute` throws
  when one of the values bound to its statement is `undefined`.
* The libraries the router calls (`bcrypt`, `jsonwebtoken`, `cookie`) are parameters,
  collected in `Env`.
* Every handler takes the store and returns the JSON body it sends together with the
  store it leaves behind.
-/

namespace EgyTalk

/-! ## Values and objects -/

/-- The JavaScript values a JSON body field or a column of a result row can hold. -/
inductive JsVal where
  | undefined
  | null
  | bool (b : Bool)
  | num (n : Int)
  | str (s : String)
  deriving DecidableEq, Repr

/-- The values a column of table `user` can hold: what a JavaScript value becomes
when it is bound to a statement. There is no `undefined` among them. -/
inductive SqlVal where
  | null
  | bool (b : Bool)
  | num (n : Int)
  | str (s : String)
  deriving DecidableEq, Repr

/-- The JavaScript value a result row carries for a column value. -/
def SqlVal.toJs : SqlVal → JsVal
  | SqlVal.null => JsVal.null
  | SqlVal.bool b => JsVal.bool b
  | SqlVal.num n => JsVal.num n
  | SqlVal.str s => JsVal.str s

/-- The value bound to a `?` of a statement: `connection.execute` rejects `undefined`
("Bind parameters must not contain undefined"). -/
def bindParam : JsVal → Option SqlVal
  | JsVal.undefined => none
  | JsVal.null => some SqlVal.null
  | JsVal.bool b => some (SqlVal.bool b)
  | JsVal.num n => some (SqlVal.num n)
  | JsVal.str s => some (SqlVal.str s)

/-- A JavaScript object: property names with their values. -/
abbrev Obj := List (String × JsVal)

/-- Property read `o[k]` (or `o.k`): `undefined` when the property is absent. -/
def Obj.get (o : Obj) (k : String) : JsVal :=
  match o.lookup k with
  | some v => v
  | none => JsVal.undefined

/-- The statement `delete o[k]`. -/
def Obj.delete (o : Obj) (k : String) : Obj :=
  o.filter (fun p => p.1 != k)

/-- Whether the object has a property named `k`. -/
def Obj.hasKey (o : Obj) (k : String) : Bool :=
  o.any (fun p => p.1 == k)

/-- The `userInfo` member of a result: it starts as the empty array `[]`, becomes a row
object in `authenticateUser` and `getUserFromCookie`, and an array of rows in
`GET /users`. -/
inductive UserInfo where
  | arr (rows : List Obj)
  | obj (o : Obj)
  deriving DecidableEq, Repr

/-- The object `{ success, userInfo }`. -/
structure AuthResult where
  success : Bool
  userInfo : UserInfo
  deriving DecidableEq, Repr

/-- The object `{ success }` sent by `POST /users`, `POST /logout` and the fallback. -/
structure Status where
  success : Bool
  deriving DecidableEq, Repr

/-- Whether `userInfo` is empty (`[]` or `{}`). -/
def UserInfo.isEmpty : UserInfo → Bool
  | UserInfo.arr rows => rows.isEmpty
  | UserInfo.obj o => o.isEmpty

/-- Whether a `password` property occurs in `userInfo`: in the object itself, or in one
of the rows of the array. -/
def UserInfo.exposesPassword : UserInfo → Bool
  | UserInfo.arr rows => rows.any (fun o => o.hasKey "password")
  | UserInfo.obj o => o.hasKey "password"

/-! ## The store -/

/-- A row of table `user(uid, firstname, surname, username, password)`, the columns
named by the `INSERT` statement of `POST /users`. -/
structure UserRecord where
  uid : SqlVal
  firstname : SqlVal
  surname : SqlVal
  username : SqlVal
  password : SqlVal
  deriving DecidableEq, Repr

/-- The store: the rows of table `user`, and the script of faults of the coming store
interactions (`true`: the interaction throws; an exhausted script: no more faults). -/
structure Store where
  users : List UserRecord
  faults : List Bool
  deriving DecidableEq, Repr

/-- The row object of a `SELECT * FROM user` result. -/
def UserRecord.toRow (r : UserRecord) : Obj :=
  [("uid", r.uid.toJs), ("firstname", r.firstname.toJs), ("surname", r.surname.toJs),
   ("username", r.username.toJs), ("password", r.password.toJs)]

/-- The row object of a `SELECT uid, firstName, surName, userName FROM user` result. -/
def UserRecord.toListing (r : UserRecord) : Obj :=
  [("uid", r.uid.toJs), ("firstName", r.firstname.toJs), ("surName", r.surname.toJs),
   ("userName", r.username.toJs)]

/-- The cookie built by a call `serialize(name, value, options)`: `maxAge` in seconds,
`expires` as the milliseconds since the epoch of the `Date` given, either one absent
when the options do not name it. -/
structure Cookie where
  name : String
  value : String
  httpOnly : Bool
  secure : Bool
  sameSite : String
  maxAge : Option Nat
  expires : Option Nat
  path : String
  deriving DecidableEq, Repr

/-- The libraries and configuration the router depends on. -/
structure Env where
  /-- The call `bcrypt.hash(data, cost)`: the hash, or a rejection. -/
  hash : JsVal → Nat → Except Unit String
  /-- The call `bcrypt.compare(data, hash)`: a boolean, or a rejection. -/
  compare : JsVal → JsVal → Except Unit Bool
  /-- The call `jwt.sign({ uid }, JWT_SECRET, { expiresIn: '4h' })`. -/
  sign : JsVal → Except Unit String
  /-- The call `jwt.verify(token, JWT_SECRET)`: the decoded claims, or a throw. -/
  verify : String → Except Unit Obj
  /-- The call `parse(cookieHeader)` of package `cookie`. -/
  parse : String → List (String × String)
  /-- The comparison `column = ?` of the store, on a column value and a bound value. -/
  sqlEq : SqlVal → SqlVal → Bool
  /-- The value of `UUID()` for a new row of the given table. -/
  newUid : List UserRecord → SqlVal
  /-- Whether `NODE_ENV === 'production'`. -/
  production : Bool

/-- The statements the router executes, with the JavaScript values it passes for
their `?`. -/
inductive Query where
  /-- Statement `INSERT INTO user(uid, firstname, surname, username, password)
  VALUES(UUID(),?,?,?,?)`. -/
  | insertUser (firstName surName userName hashedPassword : JsVal)
  /-- Statement `SELECT * FROM user WHERE  username = ?`. -/
  | selectByUserName (userName : JsVal)
  /-- Statement `SELECT * FROM user WHERE  uid = ?`. -/
  | selectByUid (uid : JsVal)
  /-- Statement `SELECT uid, firstName, surName, userName FROM user`. -/
  | selectAll

/-- The function `connectToDB` of `mariadb/connect.mjs`: `mysql.createConnection` either
yields a connection or throws. -/
def connectToDB (st : Store) : Except Unit Unit × Store :=
  match st.faults with
  | [] => (Except.ok (), st)
  | true :: fs => (Except.error (), { st with faults := fs })
  | false :: fs => (Except.ok (), { st with faults := fs })

/-- A statement with the values bound to its `?`. -/
inductive Bound where
  | insertUser (firstName surName userName hashedPassword : SqlVal)
  | selectByUserName (userName : SqlVal)
  | selectByUid (uid : SqlVal)
  | selectAll

/-- The binding of the values of a statement: none when one of them is `undefined`. -/
def Query.bound : Query → Option Bound
  | Query.insertUser f s u h =>
    match bindParam f, bindParam s, bindParam u, bindParam h with
    | some f1, some s1, some u1, some h1 => some (Bound.insertUser f1 s1 u1 h1)
    | _, _, _, _ => none
  | Query.selectByUserName u =>
    match bindParam u with
    | some u1 => some (Bound.selectByUserName u1)
    | none => none
  | Query.selectByUid u =>
    match bindParam u with
    | some u1 => some (Bound.selectByUid u1)
    | none => none
  | Query.selectAll => some Bound.selectAll

/-- Modelled from the spec: the table definition of `user` is not part of the sources, so
the effect of the `INSERT` follows `createUser` of the User Store contract: it fails with
`DuplicateUser` if `userName` already exists, and otherwise creates the record under a
newly generated id. -/
def createUser (env : Env) (users : List UserRecord)
    (firstName surName userName hashedPassword : SqlVal) : Except Unit (List UserRecord) :=
  if users.any (fun r => env.sqlEq r.username userName) then
    Except.error ()
  else
    Except.ok (users ++ [{ uid := env.newUid users, firstname := firstName,
                           surname := surName, username := userName,
                           password := hashedPassword }])

/-- The rows a bound statement yields on a table, and the table it leaves. -/
def runQuery (env : Env) (users : List UserRecord) :
    Bound → Except Unit (List Obj × List UserRecord)
  | Bound.insertUser f s u h =>
    match createUser env users f s u h with
    | Except.ok users1 => Except.ok ([], users1)
    | Except.error e => Except.error e
  | Bound.selectByUserName u =>
    Except.ok (((users.filter (fun r => env.sqlEq r.username u)).map UserRecord.toRow), users)
  | Bound.selectByUid u =>
    Except.ok (((users.filter (fun r => env.sqlEq r.uid u)).map UserRecord.toRow), users)
  | Bound.selectAll =>
    Except.ok (users.map UserRecord.toListing, users)

/-- The call `connection.execute(sql, params)`: it throws when the script says so, it
throws when a value to bind is `undefined`, and otherwise it runs the statement. -/
def execute (env : Env) (st : Store) (q : Query) : Except Unit (List Obj) × Store :=
  match st.faults with
  | true :: fs => (Except.error (), { st with faults := fs })
  | fs =>
    match q.bound with
    | none => (Except.error (), { st with faults := fs.tail })
    | some b =>
      match runQuery env st.users b with
      | Except.ok (rows, users1) => (Except.ok rows, { users := users1, faults := fs.tail })
      | Except.error e => (Except.error e, { st with faults := fs.tail })

/-! ## The router -/

/-- The parts of a request the handlers read: the body fields and the `cookie` header. -/
structure Request where
  firstName : JsVal
  surName : JsVal
  userName : JsVal
  password : JsVal
  cookie : Option String
  deriving DecidableEq, Repr

/-- What a handler sends: the `Set-Cookie` header, if it sets one, and the JSON body. -/
structure Response (β : Type) where
  setCookie : Option Cookie
  body : β

/-- The function `authenticateUser(userName, password)`. -/
def authenticateUser (env : Env) (st : Store) (userName password : JsVal) :
    AuthResult × Store :=
  let result : AuthResult := { success := false, userInfo := UserInfo.arr [] }
  match connectToDB st with
  | (Except.error _, st1) => (result, st1)
  | (Except.ok _, st1) =>
    match execute env st1 (Query.selectByUserName userName) with
    | (Except.error _, st2) => (result, st2)
    | (Except.ok rows, st2) =>
      match rows with
      | [row] =>
        -- result.userInfo = rows[0]
        let result1 : AuthResult := { result with userInfo := UserInfo.obj row }
        match env.compare password (row.get "password") with
        | Except.ok true =>
          ({ success := true, userInfo := UserInfo.obj (row.delete "password") }, st2)
        | Except.ok false =>
          ({ result1 with userInfo := UserInfo.arr [] }, st2)
        | Except.error _ =>
          -- the rejection is caught after `result.userInfo` was assigned
          (result1, st2)
      | _ => (result, st2)

/-- The value of `cookies.jwt` after `const cookies = parse(cookie)`. -/
def jwtCookie (env : Env) (cookie : String) : Option String :=
  (env.parse cookie).lookup "jwt"

/-- The function `getUserFromCookie(cookie)`. -/
def getUserFromCookie (env : Env) (st : Store) (cookie : Option String) :
    AuthResult × Store :=
  let response : AuthResult := { success := false, userInfo := UserInfo.arr [] }
  match cookie with
  | none => (response, st)
  | some c =>
    if c = "" then (response, st)
    else
      match jwtCookie env c with
      | none => (response, st)
      | some token =>
        if token = "" then (response, st)
        else
          match env.verify token with
          | Except.error _ => (response, st)
          | Except.ok decodedJWT =>
            match connectToDB st with
            | (Except.error _, st1) => (response, st1)
            | (Except.ok _, st1) =>
              match execute env st1 (Query.selectByUid (decodedJWT.get "uid")) with
              | (Except.error _, st2) => (response, st2)
              | (Except.ok rows, st2) =>
                match rows with
                | [row] =>
                  ({ success := true, userInfo := UserInfo.obj (row.delete "password") }, st2)
                | _ => (response, st2)

/-- The handler `router.post('/users', ...)`. -/
def postUsers (env : Env) (st : Store) (req : Request) : Status × Store :=
  let result : Status := { success := false }
  let cost := 10
  match env.hash req.password cost with
  | Except.error _ => (result, st)
  | Except.ok hashedPassword =>
    match connectToDB st with
    | (Except.error _, st1) => (result, st1)
    | (Except.ok _, st1) =>
      match execute env st1
          (Query.insertUser req.firstName req.surName req.userName
            (JsVal.str hashedPassword)) with
      | (Except.error _, st2) => (result, st2)
      | (Except.ok _, st2) => ({ success := true }, st2)

/-- The handler `router.post('/auth', ...)`. The response is `none` when `jwt.sign`
throws, which the handler does not catch. -/
def postAuth (env : Env) (st : Store) (req : Request) :
    Option (Response AuthResult) × Store :=
  match authenticateUser env st req.userName req.password with
  | (response, st1) =>
    if !response.success then
      (some { setCookie := none, body := response }, st1)
    else
      let uid :=
        match response.userInfo with
        | UserInfo.obj o => o.get "uid"
        | UserInfo.arr _ => JsVal.undefined
      match env.sign uid with
      | Except.error _ => (none, st1)
      | Except.ok token =>
        let cookie : Cookie :=
          { name := "jwt", value := token, httpOnly := true, secure := env.production,
            sameSite := "Strict", maxAge := some 14400, expires := none, path := "/" }
        (some { setCookie := some cookie, body := response }, st1)

/-- The handler `router.post('/logout', ...)`. -/
def postLogout (env : Env) (st : Store) (_req : Request) : Response Status × Store :=
  let cookie : Cookie :=
    { name := "jwt", value := "", httpOnly := true, secure := env.production,
      sameSite := "strict", maxAge := none, expires := some 0, path := "/" }
  ({ setCookie := some cookie, body := { success := true } }, st)

/-- The handler `router.get('/auth', ...)`. -/
def getAuth (env : Env) (st : Store) (req : Request) : AuthResult × Store :=
  getUserFromCookie env st req.cookie

/-- The handler `router.get('/users', ...)`. -/
def getUsers (env : Env) (st : Store) (req : Request) : AuthResult × Store :=
  match getUserFromCookie env st req.cookie with
  | (result, st1) =>
    if !result.success then (result, st1)
    else
      match connectToDB st1 with
      | (Except.error _, st2) => (result, st2)
      | (Except.ok _, st2) =>
        match execute env st2 Query.selectAll with
        | (Except.error _, st3) => (result, st3)
        | (Except.ok rows, st3) => ({ success := true, userInfo := UserInfo.arr rows }, st3)

/-- The handler `router.get('/*', ...)`. -/
def getFallback (st : Store) (_req : Request) : Status × Store :=
  ({ success := false }, st)

/-! ## A concrete deployment

One user, `alice`, whose password is `secret`; `bcrypt` as its entry checks behave:
`compare` rejects when an argument is missing or is not a string. -/

/-- A `bcrypt` whose hash of `p` is `h:p`, and whose `hash` and `compare` reject a
missing or ill-typed argument, as the entry checks of the package do. -/
def demoHash : JsVal → Nat → Except Unit String
  | JsVal.str p, _ => Except.ok ("h:" ++ p)
  | _, _ => Except.error ()

/-- The comparison of `demoHash`. -/
def demoCompare : JsVal → JsVal → Except Unit Bool
  | JsVal.str p, JsVal.str h => Except.ok (h == "h:" ++ p)
  | _, _ => Except.error ()

/-- A deployment with one signing key: the token of `u1` is `tok-u1`. -/
def demoEnv : Env where
  hash := demoHash
  compare := demoCompare
  sign := fun uid => if uid = JsVal.str "u1" then Except.ok "tok-u1" else Except.error ()
  verify := fun token =>
    if token = "tok-u1" then Except.ok [("uid", JsVal.str "u1")] else Except.error ()
  parse := fun header =>
    if header = "jwt=tok-u1" then [("jwt", "tok-u1")]
    else if header = "jwt=" then [("jwt", "")]
    else []
  sqlEq := fun a b =>
    match a, b with
    | SqlVal.str x, SqlVal.str y => x == y
    | _, _ => false
  newUid := fun users => SqlVal.num users.length
  production := false

/-- The record of `alice`. -/
def alice : UserRecord :=
  { uid := SqlVal.str "u1", firstname := SqlVal.str "Alice", surname := SqlVal.str "A",
    username := SqlVal.str "alice", password := SqlVal.str "h:secret" }

/-- A store that holds `alice` and does not fault. -/
def demoStore : Store := { users := [alice], faults := [] }

/-- A request with the given credentials and no cookie. -/
def credentials (userName password : JsVal) : Request :=
  { firstName := JsVal.undefined, surName := JsVal.undefined, userName := userName,
    password := password, cookie := none }

/-- A request that carries only the given cookie header. -/
def withCookie (header : String) : Request :=
  { firstName := JsVal.undefined, surName := JsVal.undefined,
    userName := JsVal.undefined, password := JsVal.undefined, cookie := some header }

/-! ## Notions the statements use -/

/-- The next `n` store interactions do not fault. -/
def Store.available (st : Store) (n : Nat) : Bool :=
  (st.faults.take n).all (fun b => !b)

/-- The store after one interaction: the script of faults has advanced by one entry. -/
def Store.next (st : Store) : Store := { st with faults := st.faults.tail }

/-- The failure result `{ success: false, userInfo: [] }`. -/
def failure : AuthResult := { success := false, userInfo := UserInfo.arr [] }

/-- The session a cookie header stands for: the header is present and holds a non-empty
`jwt` cookie, the token verifies, the `uid` of its claims can be bound, and the lookup
by it goes through and finds the one record `r`. -/
def SessionOf (env : Env) (st : Store) (cookie : Option String) (r : UserRecord) : Prop :=
  ∃ c token claims uid, cookie = some c ∧ c ≠ "" ∧ jwtCookie env c = some token ∧
    token ≠ "" ∧ env.verify token = Except.ok claims ∧
    bindParam (claims.get "uid") = some uid ∧ st.available 2 = true ∧
    st.users.filter (fun x => env.sqlEq x.uid uid) = [r]

/-- The codec assumption: a token that `jwt.sign` issued for a `uid` is a non-empty
string, and `jwt.verify` accepts it and recovers claims with that `uid`. -/
def CodecRoundTrip (env : Env) : Prop :=
  ∀ uid token, env.sign uid = Except.ok token →
    token ≠ "" ∧ ∃ claims, env.verify token = Except.ok claims ∧ claims.get "uid" = uid

/-- Column `uid` is a key of the table: selecting by the `uid` of a stored record yields
that record and no other. -/
def UniqueIds (env : Env) (users : List UserRecord) : Prop :=
  ∀ r ∈ users, users.filter (fun x => env.sqlEq x.uid r.uid) = [r]

/-! ## Theorems -/

theorem bindParam_toJs (v : SqlVal) : bindParam v.toJs = some v := by
  cases v <;> rfl

theorem connectToDB_eq (st : Store) :
    connectToDB st =
      if st.available 1 = true then (Except.ok (), st.next) else (Except.error (), st.next) := by
  obtain ⟨users, faults⟩ := st
  rcases faults with _ | ⟨b, fs⟩
  · rfl
  · cases b <;> rfl

theorem execute_eq (env : Env) (st : Store) (q : Query) :
    execute env st q =
      if st.available 1 = true then
        match q.bound with
        | none => (Except.error (), st.next)
        | some b =>
          match runQuery env st.users b with
          | Except.ok (rows, users1) =>
            (Except.ok rows, { users := users1, faults := st.faults.tail })
          | Except.error e => (Except.error e, st.next)
      else (Except.error (), st.next) := by
  obtain ⟨users, faults⟩ := st
  rcases faults with _ | ⟨b, fs⟩
  · simp only [execute, Store.available, Store.next]
    rfl
  · cases b
    · simp only [execute, Store.available, Store.next]
      rfl
    · rfl

theorem available_two (st : Store) :
    st.available 2 = (st.available 1 && st.next.available 1) := by
  obtain ⟨users, faults⟩ := st
  rcases faults with _ | ⟨b1, _ | ⟨b2, fs⟩⟩ <;> simp [Store.available, Store.next]

/-- A row of `SELECT *` after `delete row['password']`. -/
theorem toRow_delete_password (r : UserRecord) :
    r.toRow.delete "password" =
      [("uid", r.uid.toJs), ("firstname", r.firstname.toJs), ("surname", r.surname.toJs),
       ("username", r.username.toJs)] := by
  simp [UserRecord.toRow, Obj.delete]

theorem toRow_get_password (r : UserRecord) : r.toRow.get "password" = r.password.toJs := by
  simp [UserRecord.toRow, Obj.get, List.lookup]

/-- The result of `authenticateUser`: decided by the availability of the store, the
binding of `userName`, the rows of that `userName`, and `bcrypt.compare`. -/
theorem authenticateUser_eq (env : Env) (st : Store) (u p : JsVal) :
    (authenticateUser env st u p).1 =
      if st.available 2 = true then
        match bindParam u with
        | none => failure
        | some v =>
          match st.users.filter (fun x => env.sqlEq x.username v) with
          | [r] =>
            match env.compare p r.password.toJs with
            | Except.ok true =>
              { success := true, userInfo := UserInfo.obj (r.toRow.delete "password") }
            | Except.ok false => failure
            | Except.error _ => { success := false, userInfo := UserInfo.obj r.toRow }
          | _ => failure
      else failure := by
  have hu : st.next.users = st.users := rfl
  rw [available_two]
  by_cases h1 : st.available 1 = true
  · by_cases h2 : st.next.available 1 = true
    · simp only [authenticateUser, connectToDB_eq, execute_eq, h1, h2, Query.bound, if_true,
        Bool.and_self, hu]
      rcases bindParam u with _ | v
      · rfl
      · simp only [runQuery]
        generalize st.users.filter (fun x => env.sqlEq x.username v) = l
        rcases l with _ | ⟨r, _ | ⟨r2, rs⟩⟩
        · rfl
        · simp only [List.map, toRow_get_password]
          rcases env.compare p r.password.toJs with e | b
          · rfl
          · cases b <;> rfl
        · rfl
    · simp [authenticateUser, connectToDB_eq, execute_eq, h1, h2, failure]
  · simp [authenticateUser, connectToDB_eq, h1, failure]

/-- The result of `getUserFromCookie` once the header holds a token that verifies. -/
theorem getUserFromCookie_of_verified (env : Env) (st : Store) (c token : String)
    (claims : Obj) (hc : c ≠ "") (hj : jwtCookie env c = some token) (ht : token ≠ "")
    (hv : env.verify token = Except.ok claims) :
    getUserFromCookie env st (some c) =
      if st.available 2 = true then
        match bindParam (claims.get "uid") with
        | none => (failure, st.next.next)
        | some uid =>
          match st.users.filter (fun x => env.sqlEq x.uid uid) with
          | [r] =>
            ({ success := true, userInfo := UserInfo.obj (r.toRow.delete "password") },
              st.next.next)
          | _ => (failure, st.next.next)
      else if st.available 1 = true then (failure, st.next.next)
      else (failure, st.next) := by
  have hu : st.next.users = st.users := rfl
  rw [available_two]
  by_cases h1 : st.available 1 = true
  · by_cases h2 : st.next.available 1 = true
    · simp only [getUserFromCookie, hc, hj, ht, hv, if_false, connectToDB_eq, execute_eq, h1,
        h2, Query.bound, if_true, Bool.and_self, hu]
      rcases bindParam (claims.get "uid") with _ | uid
      · rfl
      · simp only [runQuery]
        generalize st.users.filter (fun x => env.sqlEq x.uid uid) = l
        rcases l with _ | ⟨r, _ | ⟨r2, rs⟩⟩ <;> rfl
    · simp [getUserFromCookie, hc, hj, ht, hv, connectToDB_eq, execute_eq, h1, h2, failure]
  · simp [getUserFromCookie, hc, hj, ht, hv, connectToDB_eq, h1, failure]

/-- Without a header, or a `jwt` cookie, or a token that verifies, `getUserFromCookie`
returns the failure result and leaves the store untouched. -/
theorem getUserFromCookie_of_unverified (env : Env) (st : Store) (cookie : Option String)
    (h : ∀ c token claims, cookie = some c → c ≠ "" → jwtCookie env c = some token →
      token ≠ "" → env.verify token ≠ Except.ok claims) :
    getUserFromCookie env st cookie = (failure, st) := by
  unfold getUserFromCookie
  cases cookie with
  | none => rfl
  | some c =>
    by_cases hc : c = ""
    · simp [hc, failure]
    · simp only [hc, if_false]
      cases hj : jwtCookie env c with
      | none => rfl
      | some token =>
        by_cases ht : token = ""
        · simp [ht, failure]
        · simp only [ht, if_false]
          cases hv : env.verify token with
          | error e => rfl
          | ok claims => exact absurd hv (h c token claims rfl hc hj ht)

/-- A successful `authenticateUser` found exactly one row for the `userName`, and
`bcrypt.compare` accepted the password against the `password` of that row. -/
theorem authenticateUser_success (env : Env) (st : Store) (u p : JsVal)
    (hs : (authenticateUser env st u p).1.success = true) :
    st.available 2 = true ∧
    ∃ v r, bindParam u = some v ∧ st.users.filter (fun x => env.sqlEq x.username v) = [r] ∧
      env.compare p r.password.toJs = Except.ok true ∧
      (authenticateUser env st u p).1 =
        { success := true, userInfo := UserInfo.obj (r.toRow.delete "password") } := by
  have heq := authenticateUser_eq env st u p
  by_cases hav : st.available 2 = true
  · refine ⟨hav, ?_⟩
    simp only [hav, if_true] at heq
    rcases hb : bindParam u with _ | v
    · rw [hb] at heq
      rw [heq] at hs
      simp [failure] at hs
    · rw [hb] at heq
      simp only at heq
      rcases hl : st.users.filter (fun x => env.sqlEq x.username v) with _ | ⟨r, _ | ⟨r2, rs⟩⟩
      · rw [hl] at heq
        rw [heq] at hs
        simp [failure] at hs
      · rw [hl] at heq
        simp only at heq
        rcases hcmp : env.compare p r.password.toJs with e | b
        · rw [hcmp] at heq
          rw [heq] at hs
          simp at hs
        · cases b
          · rw [hcmp] at heq
            rw [heq] at hs
            simp [failure] at hs
          · rw [hcmp] at heq
            exact ⟨v, r, rfl, hl, hcmp, heq⟩
      · rw [hl] at heq
        rw [heq] at hs
        simp [failure] at hs
  · simp only [hav] at heq
    rw [heq] at hs
    simp [failure] at hs

/-- The result of `getUserFromCookie` on a session, and the store it leaves. -/
theorem getUserFromCookie_of_session (env : Env) (st : Store) (cookie : Option String)
    (r : UserRecord) (h : SessionOf env st cookie r) :
    getUserFromCookie env st cookie =
      ({ success := true,
         userInfo := UserInfo.obj [("uid", r.uid.toJs), ("firstname", r.firstname.toJs),
           ("surname", r.surname.toJs), ("username", r.username.toJs)] },
        st.next.next) := by
  obtain ⟨c, token, claims, uid, rfl, hc, hj, ht, hv, hb, hav, hr⟩ := h
  rw [getUserFromCookie_of_verified env st c token claims hc hj ht hv]
  simp only [hav, if_true, hb, hr, toRow_delete_password]

/-- Without a session, `getUserFromCookie` returns the failure result. -/
theorem getUserFromCookie_of_no_session (env : Env) (st : Store) (cookie : Option String)
    (hn : ¬ ∃ r, SessionOf env st cookie r) :
    (getUserFromCookie env st cookie).1 = failure := by
  by_cases hver : ∃ c token claims, cookie = some c ∧ c ≠ "" ∧
      jwtCookie env c = some token ∧ token ≠ "" ∧ env.verify token = Except.ok claims
  · obtain ⟨c, token, claims, rfl, hc, hj, ht, hv⟩ := hver
    rw [getUserFromCookie_of_verified env st c token claims hc hj ht hv]
    by_cases hav : st.available 2 = true
    · simp only [hav, if_true]
      rcases hb : bindParam (claims.get "uid") with _ | uid
      · rfl
      · simp only
        split
        · next r hr =>
          exact absurd ⟨r, c, token, claims, uid, rfl, hc, hj, ht, hv, hb, hav, hr⟩ hn
        · rfl
    · by_cases h1 : st.available 1 = true <;> simp [hav, h1]
  · rw [getUserFromCookie_of_unverified env st cookie]
    intro c token claims h1 h2 h3 h4 h5
    exact hver ⟨c, token, claims, h1, h2, h3, h4, h5⟩

/-- C4, as amended: a login with an unknown `userName` and a login with a known
`userName` and a password that `bcrypt.compare` answers with `false` both return
`success: false` with the empty array as `userInfo`, and the two results, as well as
the two responses of `POST /auth`, are equal. -/
theorem login_failures_indistinguishable (env : Env) (st : Store) (u p u' p' : JsVal)
    (v' : SqlVal) (r : UserRecord) (hav : st.available 2 = true)
    (hunknown : ∀ v, bindParam u = some v →
      st.users.filter (fun x => env.sqlEq x.username v) = [])
    (hbound : bindParam u' = some v')
    (hknown : st.users.filter (fun x => env.sqlEq x.username v') = [r])
    (hwrong : env.compare p' r.password.toJs = Except.ok false) :
    (authenticateUser env st u p).1 = { success := false, userInfo := UserInfo.arr [] } ∧
    (authenticateUser env st u' p').1 = { success := false, userInfo := UserInfo.arr [] } ∧
    (authenticateUser env st u p).1.userInfo.isEmpty = true ∧
    (authenticateUser env st u p).1 = (authenticateUser env st u' p').1 ∧
    (postAuth env st (credentials u p)).1 = (postAuth env st (credentials u' p')).1 := by
  have h1 : (authenticateUser env st u p).1 =
      { success := false, userInfo := UserInfo.arr [] } := by
    rw [authenticateUser_eq env st u p]
    simp only [hav, if_true]
    rcases hb : bindParam u with _ | v
    · rfl
    · simp only [hunknown v hb]
      rfl
  have h2 : (authenticateUser env st u' p').1 =
      { success := false, userInfo := UserInfo.arr [] } := by
    rw [authenticateUser_eq env st u' p']
    simp only [hav, if_true, hbound, hknown, hwrong]
    rfl
  refine ⟨h1, h2, ?_, ?_, ?_⟩
  · rw [h1]; rfl
  · rw [h1, h2]
  · simp only [postAuth, credentials]
    rw [show authenticateUser env st u p =
      ((authenticateUser env st u p).1, (authenticateUser env st u p).2) from rfl,
      show authenticateUser env st u' p' =
      ((authenticateUser env st u' p').1, (authenticateUser env st u' p').2) from rfl,
      h1, h2]
    rfl

/-- The two failing logins of C4 on the store that holds `alice`: user `bob` is unknown,
and `wrong` is not the password of `alice`. -/
theorem login_failures_indistinguishable_witness :
    (authenticateUser demoEnv demoStore (JsVal.str "bob") (JsVal.str "secret")).1 =
      { success := false, userInfo := UserInfo.arr [] } ∧
    (authenticateUser demoEnv demoStore (JsVal.str "alice") (JsVal.str "wrong")).1 =
      { success := false, userInfo := UserInfo.arr [] } ∧
    (authenticateUser demoEnv demoStore (JsVal.str "bob")
      (JsVal.str "secret")).1.userInfo.isEmpty = true ∧
    (authenticateUser demoEnv demoStore (JsVal.str "bob") (JsVal.str "secret")).1 =
      (authenticateUser demoEnv demoStore (JsVal.str "alice") (JsVal.str "wrong")).1 ∧
    (postAuth demoEnv demoStore (credentials (JsVal.str "bob") (JsVal.str "secret"))).1 =
      (postAuth demoEnv demoStore (credentials (JsVal.str "alice") (JsVal.str "wrong"))).1 :=
  login_failures_indistinguishable demoEnv demoStore (JsVal.str "bob") (JsVal.str "secret")
    (JsVal.str "alice") (JsVal.str "wrong") (SqlVal.str "alice") alice (by decide)
    (by intro v hv; cases hv; decide) rfl (by decide) rfl

/-- C4 as stated fails: with the password `1`, which is not the password of `alice`,
the login of the unknown `bob` returns the empty array, the login of the known `alice`
returns her whole row, and the two results differ; and the empty `userInfo` of a
failed login is the array `[]`, not the object `{}`. -/
theorem login_failures_distinguishable :
    (authenticateUser demoEnv demoStore (JsVal.str "bob") (JsVal.num 1)).1 =
      { success := false, userInfo := UserInfo.arr [] } ∧
    (authenticateUser demoEnv demoStore (JsVal.str "alice") (JsVal.num 1)).1 =
      { success := false,
        userInfo := UserInfo.obj [("uid", JsVal.str "u1"), ("firstname", JsVal.str "Alice"),
          ("surname", JsVal.str "A"), ("username", JsVal.str "alice"),
          ("password", JsVal.str "h:secret")] } ∧
    (authenticateUser demoEnv demoStore (JsVal.str "bob") (JsVal.num 1)).1 ≠
      (authenticateUser demoEnv demoStore (JsVal.str "alice") (JsVal.num 1)).1 ∧
    (authenticateUser demoEnv demoStore (JsVal.str "alice")
      (JsVal.num 1)).1.userInfo.isEmpty = false ∧
    (authenticateUser demoEnv demoStore (JsVal.str "bob") (JsVal.num 1)).1.userInfo ≠
      UserInfo.obj [] := by
  decide

/-- C5: `getUserFromCookie` returns `success: true` exactly when the cookie header
stands for a session (it is present with a non-empty `jwt` cookie, the token verifies,
and the lookup by the `uid` of the token finds the record); `userInfo` is then that
record without its `password`, and in every other case the result is the failure
result `{ success: false, userInfo: [] }`. -/
theorem getUserFromCookie_success_iff (env : Env) (st : Store) (cookie : Option String) :
    ((getUserFromCookie env st cookie).1.success = true ↔ ∃ r, SessionOf env st cookie r) ∧
    (∀ r, SessionOf env st cookie r →
      (getUserFromCookie env st cookie).1 =
        { success := true,
          userInfo := UserInfo.obj [("uid", r.uid.toJs), ("firstname", r.firstname.toJs),
            ("surname", r.surname.toJs), ("username", r.username.toJs)] }) ∧
    ((¬ ∃ r, SessionOf env st cookie r) →
      (getUserFromCookie env st cookie).1 = { success := false, userInfo := UserInfo.arr [] }) := by
  have hno : (¬ ∃ r, SessionOf env st cookie r) →
      (getUserFromCookie env st cookie).1 =
        { success := false, userInfo := UserInfo.arr [] } :=
    fun hn => getUserFromCookie_of_no_session env st cookie hn
  refine ⟨⟨fun hs => ?_, fun ⟨r, hr⟩ => by rw [getUserFromCookie_of_session env st cookie r hr]⟩,
    fun r hr => by rw [getUserFromCookie_of_session env st cookie r hr], hno⟩
  by_contra hn
  rw [hno hn] at hs
  exact absurd hs (by decide)

/-- The session of `alice`: her token in the `jwt` cookie, on the store that holds her. -/
theorem getUserFromCookie_success_iff_witness :
    (getUserFromCookie demoEnv demoStore (some "jwt=tok-u1")).1 =
      { success := true,
        userInfo := UserInfo.obj [("uid", JsVal.str "u1"), ("firstname", JsVal.str "Alice"),
          ("surname", JsVal.str "A"), ("username", JsVal.str "alice")] } :=
  (getUserFromCookie_success_iff demoEnv demoStore (some "jwt=tok-u1")).2.1 alice
    ⟨"jwt=tok-u1", "tok-u1", [("uid", JsVal.str "u1")], SqlVal.str "u1", rfl, by decide,
      by decide, by decide, rfl, rfl, by decide, by decide⟩

/-- C6: after a successful login, `POST /auth` has set a cookie named `jwt` whose value is
the token signed over the `uid` of the found user; on a store with unique ids, any
header from which `parse` recovers that value makes `getUserFromCookie`, on the same
table and with the store available, return the result the login returned, provided
`jwt.verify` recovers the claims of a token `jwt.sign` issued. -/
theorem login_then_verifySession (env : Env) (st st1 : Store) (req : Request)
    (resp : Response AuthResult) (hlogin : postAuth env st req = (some resp, st1))
    (hs : resp.body.success = true) (huniq : UniqueIds env st.users)
    (hcodec : CodecRoundTrip env) :
    ∃ cookie, resp.setCookie = some cookie ∧ cookie.name = "jwt" ∧
      (∃ r ∈ st.users, env.sign r.uid.toJs = Except.ok cookie.value) ∧
      ∀ (st2 : Store) (header : String), st2.users = st.users → st2.available 2 = true →
        header ≠ "" → jwtCookie env header = some cookie.value →
        (getUserFromCookie env st2 (some header)).1 = resp.body ∧
        (getUserFromCookie env st2 (some header)).1.success = true := by
  rcases hauth : authenticateUser env st req.userName req.password with ⟨res, st'⟩
  have hres : (authenticateUser env st req.userName req.password).1 = res := by rw [hauth]
  simp only [postAuth, hauth] at hlogin
  by_cases hsucc : res.success = true
  · obtain ⟨-, v, r, -, hr, -, heq⟩ :=
      authenticateUser_success env st req.userName req.password (by rw [hres]; exact hsucc)
    rw [hres, toRow_delete_password] at heq
    have hmem : r ∈ st.users := by
      have : r ∈ st.users.filter (fun x => env.sqlEq x.username v) := by
        rw [hr]; exact List.mem_singleton.mpr rfl
      exact (List.mem_filter.mp this).1
    have huid : (match res.userInfo with
        | UserInfo.obj o => o.get "uid"
        | UserInfo.arr _ => JsVal.undefined) = r.uid.toJs := by
      rw [heq]; simp [Obj.get, List.lookup]
    simp only [hsucc, huid, Bool.not_true, Bool.false_eq_true, if_false] at hlogin
    rcases hsign : env.sign r.uid.toJs with e | token
    · simp [hsign] at hlogin
    · simp only [hsign, Prod.mk.injEq, Option.some.injEq] at hlogin
      obtain ⟨hresp, -⟩ := hlogin
      subst hresp
      refine ⟨_, rfl, rfl, ⟨r, hmem, hsign⟩, ?_⟩
      intro st2 header husers hav hh hj
      obtain ⟨hne, claims, hv, hclaim⟩ := hcodec r.uid.toJs token hsign
      have hsess : SessionOf env st2 (some header) r :=
        ⟨header, token, claims, r.uid, rfl, hh, hj, hne, hv,
          by rw [hclaim]; exact bindParam_toJs r.uid, hav,
          by rw [husers]; exact huniq r hmem⟩
      rw [getUserFromCookie_of_session env st2 (some header) r hsess]
      exact ⟨heq.symm, rfl⟩
  · simp only [hsucc, Bool.not_eq_true] at hlogin
    have hf : res.success = false := by simpa using hsucc
    simp only [hf, Bool.not_false, if_true, Prod.mk.injEq, Option.some.injEq] at hlogin
    obtain ⟨hresp, -⟩ := hlogin
    subst hresp
    simp [hf] at hs

/-- The login of `alice` with her password, followed by the request that carries the
cookie. -/
theorem login_then_verifySession_witness :
    (postAuth demoEnv demoStore (credentials (JsVal.str "alice") (JsVal.str "secret"))).1.map
        (fun resp => resp.body) =
      some { success := true, userInfo := UserInfo.obj (alice.toRow.delete "password") } ∧
    (getUserFromCookie demoEnv demoStore (some "jwt=tok-u1")).1 =
      { success := true, userInfo := UserInfo.obj (alice.toRow.delete "password") } := by
  obtain ⟨cookie, hset, -, -, hall⟩ :=
    login_then_verifySession demoEnv demoStore demoStore
      (credentials (JsVal.str "alice") (JsVal.str "secret"))
      { setCookie := some { name := "jwt", value := "tok-u1", httpOnly := true,
                            secure := false, sameSite := "Strict", maxAge := some 14400,
                            expires := none, path := "/" },
        body := { success := true,
                  userInfo := UserInfo.obj (alice.toRow.delete "password") } }
      rfl rfl (by unfold UniqueIds; decide)
      (by
        intro uid token h
        simp only [demoEnv] at h ⊢
        split at h
        · cases h
          exact ⟨by decide, [("uid", JsVal.str "u1")], rfl, by subst_vars; rfl⟩
        · cases h)
  cases hset
  exact ⟨rfl, (hall demoStore "jwt=tok-u1" rfl (by decide) (by decide) rfl).1⟩

/-- C7: `POST /logout` answers `{ success: true }` for every request and leaves the
store as it was, no interaction consumed; it sets a cookie named `jwt` with an empty
value that expires at epoch 0; and `getUserFromCookie` on a header whose `jwt` cookie
has that value returns `success: false`, again without a store interaction. -/
theorem postLogout_spec (env : Env) (st : Store) (req : Request) :
    (postLogout env st req).1.body = { success := true } ∧
    (postLogout env st req).2 = st ∧
    ∃ cookie, (postLogout env st req).1.setCookie = some cookie ∧
      cookie.name = "jwt" ∧ cookie.value = "" ∧ cookie.expires = some 0 ∧
      ∀ (st' : Store) (header : String), jwtCookie env header = some cookie.value →
        (getUserFromCookie env st' (some header)).1.success = false ∧
        getUserFromCookie env st' (some header) =
          ({ success := false, userInfo := UserInfo.arr [] }, st') := by
  refine ⟨rfl, rfl, _, rfl, rfl, rfl, rfl, ?_⟩
  intro st' header hj
  have h : getUserFromCookie env st' (some header) =
      ({ success := false, userInfo := UserInfo.arr [] }, st') := by
    by_cases hc : header = ""
    · simp [getUserFromCookie, hc]
    · simp [getUserFromCookie, hc, hj]
  rw [h]
  exact ⟨rfl, rfl⟩

/-- The logout of `alice` and her next request, whose header is `jwt=`. -/
theorem postLogout_spec_witness :
    (postLogout demoEnv demoStore (withCookie "jwt=tok-u1")).1.body = { success := true } ∧
    (getUserFromCookie demoEnv demoStore (some "jwt=")).1.success = false := by
  obtain ⟨hbody, -, cookie, hset, -, -, -, hall⟩ :=
    postLogout_spec demoEnv demoStore (withCookie "jwt=tok-u1")
  cases hset
  exact ⟨hbody, (hall demoStore "jwt=" rfl).1⟩

theorem toListing_hasKey_password (r : UserRecord) :
    r.toListing.hasKey "password" = false := by
  simp [UserRecord.toListing, Obj.hasKey]

theorem listing_exposesPassword (users : List UserRecord) :
    (UserInfo.arr (users.map UserRecord.toListing)).exposesPassword = false := by
  simp [UserInfo.exposesPassword, toListing_hasKey_password]

/-- What `GET /users` does when no store fault hits the list query. When the cookie
header stands for no session (it is missing, or holds no token that verifies, or the
session lookup fails), it returns what `getUserFromCookie` returned, the failure
result, and the store is left as `getUserFromCookie` left it: the user list is not
queried. When the header stands for a session and the list query goes through, the
result is `success: true` with the listing of all users, none of which has a
`password` property. -/
theorem getUsers_spec (env : Env) (st : Store) (req : Request) :
    ((¬ ∃ r, SessionOf env st req.cookie r) →
      getUsers env st req = getUserFromCookie env st req.cookie ∧
      (getUsers env st req).1 = { success := false, userInfo := UserInfo.arr [] }) ∧
    (∀ r, SessionOf env st req.cookie r → st.next.next.available 2 = true →
      (getUsers env st req).1 =
        { success := true, userInfo := UserInfo.arr (st.users.map UserRecord.toListing) } ∧
      (getUsers env st req).1.userInfo.exposesPassword = false) := by
  constructor
  · intro hn
    have hf := getUserFromCookie_of_no_session env st req.cookie hn
    have hg : getUsers env st req = getUserFromCookie env st req.cookie := by
      rcases hres : getUserFromCookie env st req.cookie with ⟨res, st1⟩
      rw [hres] at hf
      simp only at hf
      subst hf
      simp [getUsers, hres, failure]
    rw [hg, hf]
    exact ⟨rfl, rfl⟩
  · intro r hr hav
    have hg : (getUsers env st req).1 =
        { success := true, userInfo := UserInfo.arr (st.users.map UserRecord.toListing) } := by
      rw [available_two, Bool.and_eq_true] at hav
      have hu : st.next.next.next.users = st.users := rfl
      simp [getUsers, getUserFromCookie_of_session env st req.cookie r hr, connectToDB_eq,
        execute_eq, hav.1, hav.2, runQuery, Query.bound, hu]
    rw [hg]
    exact ⟨rfl, listing_exposesPassword st.users⟩

/-- The request of `alice` for the user list, with her cookie and without it. -/
theorem getUsers_spec_witness :
    (getUsers demoEnv demoStore (withCookie "jwt=tok-u1")).1 =
      { success := true,
        userInfo := UserInfo.arr [[("uid", JsVal.str "u1"), ("firstName", JsVal.str "Alice"),
          ("surName", JsVal.str "A"), ("userName", JsVal.str "alice")]] } ∧
    (getUsers demoEnv demoStore (withCookie "jwt=forged")).1 =
      { success := false, userInfo := UserInfo.arr [] } := by
  have h := getUsers_spec demoEnv demoStore (withCookie "jwt=tok-u1")
  have h' := getUsers_spec demoEnv demoStore (withCookie "jwt=forged")
  refine ⟨(h.2 alice ⟨"jwt=tok-u1", "tok-u1", [("uid", JsVal.str "u1")], SqlVal.str "u1", rfl,
    by decide, by decide, by decide, rfl, rfl, by decide, by decide⟩ (by decide)).1,
    (h'.1 ?_).2⟩
  rintro ⟨r, c, token, claims, uid, hc, -, hj, -, -⟩
  cases hc
  simp [jwtCookie, demoEnv] at hj

/-- C8, at the failing input: with the valid cookie of `alice`, on a store that serves
the session lookup and the connection of the list query and then fails to execute it,
`getUserFromCookie` succeeds and `GET /users` returns `success: true` with the record
of `alice` as `userInfo`, which is not the list of all users. -/
theorem getUsers_valid_cookie_without_list :
    (getUserFromCookie demoEnv { users := [alice], faults := [false, false, false, true] }
      (some "jwt=tok-u1")).1.success = true ∧
    (getUsers demoEnv { users := [alice], faults := [false, false, false, true] }
      (withCookie "jwt=tok-u1")).1 =
      { success := true,
        userInfo := UserInfo.obj [("uid", JsVal.str "u1"), ("firstname", JsVal.str "Alice"),
          ("surname", JsVal.str "A"), ("username", JsVal.str "alice")] } ∧
    (getUsers demoEnv { users := [alice], faults := [false, false, false, true] }
      (withCookie "jwt=tok-u1")).1.userInfo ≠
      UserInfo.arr ([alice].map UserRecord.toListing) := by
  decide

/-- What `POST /users` does once `bcrypt.hash` has produced `h` and the three fields of
the body can be bound. -/
theorem postUsers_of_hash (env : Env) (st : Store) (req : Request) (h : String)
    (f s u : SqlVal) (hh : env.hash req.password 10 = Except.ok h)
    (hf : bindParam req.firstName = some f) (hs : bindParam req.surName = some s)
    (hu : bindParam req.userName = some u) :
    postUsers env st req =
      if st.available 2 = true then
        match createUser env st.users f s u (SqlVal.str h) with
        | Except.ok users1 => ({ success := true }, { users := users1, faults := st.next.next.faults })
        | Except.error _ => ({ success := false }, st.next.next)
      else if st.available 1 = true then ({ success := false }, st.next.next)
      else ({ success := false }, st.next) := by
  have hus : st.next.users = st.users := rfl
  by_cases h1 : st.available 1 = true
  · by_cases h2 : st.next.available 1 = true
    · have h12 : st.available 2 = true := by rw [available_two, h1, h2]; rfl
      have hp : bindParam (JsVal.str h) = some (SqlVal.str h) := rfl
      simp only [postUsers, hh, connectToDB_eq, execute_eq, h1, h2, h12, if_true, runQuery,
        Query.bound, hf, hs, hu, hp, hus]
      cases createUser env st.users f s u (SqlVal.str h) <;> rfl
    · have h12 : ¬ st.available 2 = true := by rw [available_two, h1]; simpa using h2
      simp [postUsers, hh, connectToDB_eq, execute_eq, h1, h2, h12]
  · have h12 : ¬ st.available 2 = true := by rw [available_two]; simp [h1]
    simp [postUsers, hh, connectToDB_eq, h1, h12]

/-- When a field of the body cannot be bound, `POST /users` answers `success: false`
and leaves the table as it was. -/
theorem postUsers_of_unbound (env : Env) (st : Store) (req : Request)
    (hb : bindParam req.firstName = none ∨ bindParam req.surName = none ∨
      bindParam req.userName = none) :
    (postUsers env st req).1 = { success := false } ∧
    (postUsers env st req).2.users = st.users := by
  have hq : ∀ h, (Query.insertUser req.firstName req.surName req.userName
      (JsVal.str h)).bound = none := by
    intro h
    simp only [Query.bound]
    rcases hb with hb | hb | hb
    · rw [hb]
    · rw [hb]; cases bindParam req.firstName <;> rfl
    · rw [hb]; cases bindParam req.firstName <;> cases bindParam req.surName <;> rfl
  rcases hh : env.hash req.password 10 with e | h
  · simp [postUsers, hh]
  · by_cases h1 : st.available 1 = true
    · by_cases h2 : st.next.available 1 = true
      · have hp : postUsers env st req = ({ success := false }, st.next.next) := by
          simp [postUsers, hh, connectToDB_eq, execute_eq, h1, h2, hq]
        rw [hp]
        exact ⟨rfl, rfl⟩
      · have hp : postUsers env st req = ({ success := false }, st.next.next) := by
          simp [postUsers, hh, connectToDB_eq, execute_eq, h1, h2]
        rw [hp]
        exact ⟨rfl, rfl⟩
    · have hp : postUsers env st req = ({ success := false }, st.next) := by
        simp [postUsers, hh, connectToDB_eq, h1]
      rw [hp]
      exact ⟨rfl, rfl⟩

/-- C9: a registration whose `userName` already exists in the store returns
`{ success: false }` and leaves the table as it was; and `POST /users` returns
`success: true` only when `bcrypt.hash` produced a hash and the insert of the record
with that hash succeeded, the table of the resulting store being the one the insert
made. -/
theorem postUsers_duplicate (env : Env) (st : Store) (req : Request) :
    (∀ u, bindParam req.userName = some u →
      st.users.any (fun r => env.sqlEq r.username u) = true →
      (postUsers env st req).1 = { success := false } ∧
      (postUsers env st req).2.users = st.users) ∧
    ((postUsers env st req).1.success = true →
      ∃ h f s u, env.hash req.password 10 = Except.ok h ∧ st.available 2 = true ∧
        bindParam req.firstName = some f ∧ bindParam req.surName = some s ∧
        bindParam req.userName = some u ∧
        createUser env st.users f s u (SqlVal.str h) =
          Except.ok (postUsers env st req).2.users) := by
  rcases hh : env.hash req.password 10 with e | h
  · have hp : postUsers env st req = ({ success := false }, st) := by
      simp [postUsers, hh]
    rw [hp]
    exact ⟨fun _ _ _ => ⟨rfl, rfl⟩, fun hs => by simp at hs⟩
  · rcases hf : bindParam req.firstName with _ | f
    · have hb := postUsers_of_unbound env st req (Or.inl hf)
      exact ⟨fun _ _ _ => hb, fun hs => by rw [hb.1] at hs; simp at hs⟩
    · rcases hs : bindParam req.surName with _ | s
      · have hb := postUsers_of_unbound env st req (Or.inr (Or.inl hs))
        exact ⟨fun _ _ _ => hb, fun hs => by rw [hb.1] at hs; simp at hs⟩
      · rcases hu : bindParam req.userName with _ | u
        · have hb := postUsers_of_unbound env st req (Or.inr (Or.inr hu))
          exact ⟨fun _ _ _ => hb, fun hs => by rw [hb.1] at hs; simp at hs⟩
        · rw [postUsers_of_hash env st req h f s u hh hf hs hu]
          constructor
          · intro u1 hu1 hdup
            cases hu1
            have hc : createUser env st.users f s u (SqlVal.str h) = Except.error () := by
              simp only [createUser, hdup, if_true]
            rw [hc]
            by_cases h2 : st.available 2 = true
            · simp [h2, Store.next]
            · by_cases h1 : st.available 1 = true
              · simp [h2, h1, Store.next]
              · simp [h2, h1, Store.next]
          · intro hsucc
            by_cases h2 : st.available 2 = true
            · simp only [h2, if_true] at hsucc ⊢
              rcases hc : createUser env st.users f s u (SqlVal.str h) with e | users1
              · simp [hc] at hsucc
              · exact ⟨h, f, s, u, rfl, trivial, rfl, rfl, rfl, hc⟩
            · by_cases h1 : st.available 1 = true
              · simp [h2, h1] at hsucc
              · simp [h2, h1] at hsucc

/-- A second registration of `alice`, and the registration of `bob`. -/
theorem postUsers_duplicate_witness :
    (postUsers demoEnv demoStore
      { firstName := JsVal.str "Alice", surName := JsVal.str "B",
        userName := JsVal.str "alice", password := JsVal.str "other",
        cookie := none }).1 = { success := false } ∧
    (∃ h f s u, demoEnv.hash (JsVal.str "pw") 10 = Except.ok h ∧
      demoStore.available 2 = true ∧
      bindParam (JsVal.str "Bob") = some f ∧ bindParam (JsVal.str "B") = some s ∧
      bindParam (JsVal.str "bob") = some u ∧
      createUser demoEnv [alice] f s u (SqlVal.str h) = Except.ok [alice,
          { uid := SqlVal.num 1, firstname := SqlVal.str "Bob", surname := SqlVal.str "B",
            username := SqlVal.str "bob", password := SqlVal.str "h:pw" }]) :=
  ⟨((postUsers_duplicate demoEnv demoStore
      { firstName := JsVal.str "Alice", surName := JsVal.str "B",
        userName := JsVal.str "alice", password := JsVal.str "other",
        cookie := none }).1 (SqlVal.str "alice") rfl (by decide)).1,
   (postUsers_duplicate demoEnv demoStore
      { firstName := JsVal.str "Bob", surName := JsVal.str "B",
        userName := JsVal.str "bob", password := JsVal.str "pw",
        cookie := none }).2 (by decide)⟩

/-- C10: a registration whose `firstName`, `surName`, `userName` and password are
strings, with a `userName` not yet in the store, returns `success: true`, and a login
with the same `userName` and password on the resulting table returns `success: true`
with the registered `firstName`, `surName` and `userName` (and the new `uid`, and no
`password`), provided the store is available, `bcrypt.hash` hashes the password,
`bcrypt.compare` accepts the password against that hash, and the store matches the
registered `userName` against itself. -/
theorem register_then_login (env : Env) (st : Store) (req : Request) (f s u p h : String)
    (hf : req.firstName = JsVal.str f) (hsn : req.surName = JsVal.str s)
    (hun : req.userName = JsVal.str u) (hp : req.password = JsVal.str p)
    (hhash : env.hash (JsVal.str p) 10 = Except.ok h)
    (hcmp : env.compare (JsVal.str p) (JsVal.str h) = Except.ok true)
    (hfresh : st.users.any (fun r => env.sqlEq r.username (SqlVal.str u)) = false)
    (hrefl : env.sqlEq (SqlVal.str u) (SqlVal.str u) = true)
    (hav : st.available 2 = true) :
    (postUsers env st req).1 = { success := true } ∧
    (postUsers env st req).2.users =
      st.users ++ [UserRecord.mk (env.newUid st.users) (SqlVal.str f) (SqlVal.str s)
        (SqlVal.str u) (SqlVal.str h)] ∧
    ∀ st' : Store, st'.users = (postUsers env st req).2.users → st'.available 2 = true →
      (authenticateUser env st' req.userName req.password).1 =
        { success := true,
          userInfo := UserInfo.obj [("uid", (env.newUid st.users).toJs),
            ("firstname", req.firstName), ("surname", req.surName),
            ("username", req.userName)] } := by
  have hh : env.hash req.password 10 = Except.ok h := by rw [hp]; exact hhash
  have hc : createUser env st.users (SqlVal.str f) (SqlVal.str s) (SqlVal.str u)
      (SqlVal.str h) =
      Except.ok (st.users ++ [UserRecord.mk (env.newUid st.users) (SqlVal.str f)
        (SqlVal.str s) (SqlVal.str u) (SqlVal.str h)]) := by
    simp [createUser, hfresh]
  rw [postUsers_of_hash env st req h (SqlVal.str f) (SqlVal.str s) (SqlVal.str u) hh
    (by rw [hf]; rfl) (by rw [hsn]; rfl) (by rw [hun]; rfl), hc]
  simp only [hav, if_true]
  refine ⟨trivial, trivial, ?_⟩
  intro st' husers hav'
  have hnone : st.users.filter (fun r => env.sqlEq r.username (SqlVal.str u)) = [] := by
    rw [List.filter_eq_nil_iff]
    intro r hr
    have := List.any_eq_false.mp hfresh r hr
    simpa using this
  have hb : bindParam req.userName = some (SqlVal.str u) := by rw [hun]; rfl
  rw [authenticateUser_eq env st' req.userName req.password]
  simp only [hav', if_true, hb, husers]
  simp [List.filter_append, hnone, List.filter, hrefl, hp, hf, hsn, hun, hcmp,
    toRow_delete_password, SqlVal.toJs]

/-- The registration of `bob` on the store that holds `alice`, and his login. -/
theorem register_then_login_witness :
    (postUsers demoEnv demoStore
      { firstName := JsVal.str "Bob", surName := JsVal.str "B",
        userName := JsVal.str "bob", password := JsVal.str "pw",
        cookie := none }).1 = { success := true } ∧
    (authenticateUser demoEnv
      { users := [alice, { uid := SqlVal.num 1, firstname := SqlVal.str "Bob",
                           surname := SqlVal.str "B", username := SqlVal.str "bob",
                           password := SqlVal.str "h:pw" }], faults := [] }
      (JsVal.str "bob") (JsVal.str "pw")).1 =
      { success := true,
        userInfo := UserInfo.obj [("uid", JsVal.num 1), ("firstname", JsVal.str "Bob"),
          ("surname", JsVal.str "B"), ("username", JsVal.str "bob")] } := by
  have h := register_then_login demoEnv demoStore
    { firstName := JsVal.str "Bob", surName := JsVal.str "B",
      userName := JsVal.str "bob", password := JsVal.str "pw", cookie := none }
    "Bob" "B" "bob" "pw" "h:pw" rfl rfl rfl rfl rfl rfl (by decide) (by decide) (by decide)
  exact ⟨h.1, h.2.2 _ (by decide) (by decide)⟩

/-! ### Where the router departs from its contract -/

/-- When `bcrypt.compare` rejects, `authenticateUser` returns `success: false` together
with the whole row it found, `password` included: the rejection is caught after
`result.userInfo = rows[0]`, and neither branch of the `if` has run. -/
theorem authenticateUser_of_compare_error (env : Env) (st : Store) (u p : JsVal)
    (v : SqlVal) (r : UserRecord) (hav : st.available 2 = true)
    (hb : bindParam u = some v)
    (hr : st.users.filter (fun x => env.sqlEq x.username v) = [r])
    (hcmp : env.compare p r.password.toJs = Except.error ()) :
    (authenticateUser env st u p).1 =
      { success := false, userInfo := UserInfo.obj r.toRow } := by
  rw [authenticateUser_eq env st u p]
  simp only [hav, if_true, hb, hr, hcmp]

/-- The `userInfo` of `getUserFromCookie` never has a `password` property. -/
theorem getUserFromCookie_hides_password (env : Env) (st : Store) (cookie : Option String) :
    (getUserFromCookie env st cookie).1.userInfo.exposesPassword = false := by
  by_cases h : ∃ r, SessionOf env st cookie r
  · obtain ⟨r, hr⟩ := h
    rw [getUserFromCookie_of_session env st cookie r hr]
    simp [UserInfo.exposesPassword, Obj.hasKey]
  · rw [getUserFromCookie_of_no_session env st cookie h]
    rfl

/-- When the session is verified and the list query then fails, `GET /users` sends the
result of `getUserFromCookie` as it is: `success: true` with the record of the caller. -/
theorem getUsers_of_list_fault (env : Env) (st : Store) (req : Request) (r : UserRecord)
    (hr : SessionOf env st req.cookie r) (hav : st.next.next.available 2 = false) :
    (getUsers env st req).1 =
      { success := true,
        userInfo := UserInfo.obj [("uid", r.uid.toJs), ("firstname", r.firstname.toJs),
          ("surname", r.surname.toJs), ("username", r.username.toJs)] } := by
  rw [available_two] at hav
  by_cases h1 : st.next.next.available 1 = true
  · have h2 : st.next.next.next.available 1 = false := by simpa [h1] using hav
    simp [getUsers, getUserFromCookie_of_session env st req.cookie r hr, connectToDB_eq,
      execute_eq, h1, h2]
  · simp [getUsers, getUserFromCookie_of_session env st req.cookie r hr, connectToDB_eq, h1]

/-- C1, at the failing input: `POST /auth` for `alice` without a password. The body
sent is `success: false` with the row of `alice` as `userInfo`, the stored `password`
hash included. -/
theorem postAuth_exposes_password_hash :
    (postAuth demoEnv demoStore (credentials (JsVal.str "alice") JsVal.undefined)).1.map
        (fun resp => resp.body) =
      some { success := false,
             userInfo := UserInfo.obj [("uid", JsVal.str "u1"),
               ("firstname", JsVal.str "Alice"), ("surname", JsVal.str "A"),
               ("username", JsVal.str "alice"), ("password", JsVal.str "h:secret")] } ∧
    (authenticateUser demoEnv demoStore (JsVal.str "alice")
      JsVal.undefined).1.userInfo.exposesPassword = true := by
  decide

/-- C2, at the failing input: `authenticateUser` for `alice` with a password that is
not a string returns `success: false` with a `userInfo` that is not empty. -/
theorem authenticateUser_failure_not_empty :
    (authenticateUser demoEnv demoStore (JsVal.str "alice") (JsVal.num 1)).1.success = false ∧
    (authenticateUser demoEnv demoStore (JsVal.str "alice")
      (JsVal.num 1)).1.userInfo.isEmpty = false := by
  decide

/-- C3, at the failing input: `GET /users` with the cookie of `alice`, on a store that
serves the session lookup and then fails to connect for the list query, returns
`success: true`, with the record of `alice` as `userInfo`. -/
theorem getUsers_success_on_store_error :
    connectToDB { users := [alice], faults := [true] } =
      (Except.error (), { users := [alice], faults := [] }) ∧
    getUsers demoEnv { users := [alice], faults := [false, false, true] }
        (withCookie "jwt=tok-u1") =
      ({ success := true,
         userInfo := UserInfo.obj [("uid", JsVal.str "u1"), ("firstname", JsVal.str "Alice"),
           ("surname", JsVal.str "A"), ("username", JsVal.str "alice")] },
       { users := [alice], faults := [] }) :=
  ⟨rfl, by decide⟩

end EgyTalk
